import Mathlib

/-!
Shallow embedding of `src/main.ts` (Indonesia holiday calendar API:
fetch → parse → classify → cache pipeline plus the query/filter routes),
together with theorems settling the specification claims.

JavaScript strings are embedded as Lean `String`; the JS string methods
used by the source (`toLowerCase`, `trim`, `includes`, `startsWith`) are
modelled as functions on the underlying character list so that all
definitions are executable.
-/

namespace HariLibur

/-- JS `String.prototype.toLowerCase()` (all source data is ASCII). -/
def jsToLower (s : String) : String := ⟨s.data.map Char.toLower⟩

/-- JS `String.prototype.trim()`: strip leading and trailing whitespace. -/
def jsTrim (s : String) : String :=
  ⟨((s.data.dropWhile Char.isWhitespace).reverse.dropWhile Char.isWhitespace).reverse⟩

/-- Scan of a haystack for a needle: the needle occurs as a substring iff
it is a prefix of some suffix of the haystack. -/
def substrScan (needle : List Char) : List Char → Bool
  | [] => needle.isEmpty
  | c :: t => needle.isPrefixOf (c :: t) || substrScan needle t

/-- JS `hay.includes(needle)`: substring containment. -/
def jsIncludes (hay needle : String) : Bool := substrScan needle.data hay.data

/-- JS `s.startsWith(p)`: literal, case-sensitive prefix test. -/
def jsStartsWith (s p : String) : Bool := p.data.isPrefixOf s.data

/-- JS `/pat/i.test(s)` for a pattern with no metacharacters:
case-insensitive substring test. Used at main.ts lines 66-67. -/
def regexTestI (pat s : String) : Bool := jsIncludes (jsToLower s) (jsToLower pat)

/-- The closed holiday category union type of main.ts line 50. -/
inductive HolidayType
  | libur_nasional
  | cuti_bersama
  | hari_besar
deriving DecidableEq, Repr

/-- A holiday record `{date, title, type}` as pushed at main.ts line 69. -/
structure Record where
  date : String
  title : String
  type : HolidayType
deriving DecidableEq, Repr

/-- The title classification of main.ts lines 64-67: `type` starts as
`hari_besar`, is reassigned by the first regex test, then by the second. -/
def classifyType (title : String) : HolidayType :=
  let t := HolidayType.hari_besar
  let t := if regexTestI "libur nasional" title then HolidayType.libur_nasional else t
  let t := if regexTestI "cuti bersama" title then HolidayType.cuti_bersama else t
  t

/-- A DOM element as the scraper observes it: only its `textContent`
matters (possibly null). -/
structure Element where
  textContent : Option String
deriving DecidableEq, Repr

/-- One element matched by `querySelectorAll(".holiday, .libur")`, reduced
to the two sub-element lookups the loop body performs:
`el.querySelector(".date")` and `el.querySelector(".title")`, either of
which may be absent. -/
structure Entry where
  dateEl : Option Element
  titleEl : Option Element
deriving DecidableEq, Repr

/-- The loop body of main.ts lines 55-70: skip the entry when either
sub-element is missing, otherwise build a record from the trimmed text
contents (`textContent?.trim() ?? ""`) and the classified title. -/
def processEntry (e : Entry) : Option Record :=
  match e.dateEl, e.titleEl with
  | some dEl, some tEl =>
    let rawDate := (dEl.textContent.map jsTrim).getD ""
    let title := (tEl.textContent.map jsTrim).getD ""
    some { date := rawDate, title := title, type := classifyType title }
  | _, _ => none

/-- CACHE_TTL = 60 * 60 * 24 seconds (main.ts line 18). -/
def CACHE_TTL : Nat := 60 * 60 * 24

/-- The JS `number` year as the routes produce it via `Number(param)`:
either NaN (a non-numeric path segment) or an integer value. -/
inductive YearParam
  | nan
  | num (n : Int)
deriving DecidableEq, Repr

/-- One Deno KV entry for key `["libur", year]`: the stored record array
and the absolute expiry instant (milliseconds) set via `expireIn`. -/
structure CacheEntry where
  data : List Record
  expireAt : Nat
deriving DecidableEq, Repr

/-- The Deno KV store restricted to the `["libur", year]` keys the program
uses, as an association list keyed by year. -/
structure KvState where
  entries : List (YearParam × CacheEntry)
deriving DecidableEq, Repr

/-- Raw lookup of the entry stored under `["libur", year]`. -/
def kvLookup (kv : KvState) (year : YearParam) : Option CacheEntry :=
  (kv.entries.find? (fun p => p.1 == year)).map (fun p => p.2)

/-- `getCachedLibur` (main.ts lines 20-23): `kv.get` returns the stored
value, or null when the key is absent or its `expireIn` deadline has
passed (Deno KV expiry, evaluated here lazily at read time). -/
def getCachedLibur (kv : KvState) (year : YearParam) (now : Nat) : Option (List Record) :=
  match kvLookup kv year with
  | some e => if now < e.expireAt then some e.data else none
  | none => none

/-- `setCachedLibur` (main.ts lines 25-27): `kv.set(["libur", year], data,
{expireIn: CACHE_TTL * 1000})` — unconditionally replaces any entry under
the key and arms a fresh expiry `CACHE_TTL * 1000` ms after the write. -/
def setCachedLibur (kv : KvState) (year : YearParam) (data : List Record) (now : Nat) :
    KvState :=
  ⟨(year, ⟨data, now + CACHE_TTL * 1000⟩) :: kv.entries.filter (fun p => !(p.1 == year))⟩

/-- Outcome of one `fetch(url)` + `DOMParser().parseFromString` round trip
for a year: the response is either not ok, or ok with a body whose DOM
parse yields no document (`null`) or a document, the latter reduced to its
list of `.holiday, .libur` matches in document order. -/
inductive FetchResult
  | failure
  | success (doc : Option (List Entry))

/-- The upstream network/DOM environment: what fetching a given year
returns. -/
def World := YearParam → FetchResult

/-- Program state threaded through the provider: the KV store plus an
instrumentation counter of upstream fetches performed. -/
structure St where
  kv : KvState
  fetchCount : Nat
deriving DecidableEq, Repr

/-- Errors thrown by `scrapeLiburIndonesia`. -/
inductive ScrapeError
  | fetchError
  | parseError
deriving DecidableEq, Repr

/-- `scrapeLiburIndonesia` (main.ts lines 29-74). `if (cached) return
cached` is a JS truthiness test: `getCachedLibur` yields an array or null,
every array (the empty array included) is truthy and null is falsy, so the
test is exactly `isSome` of the lookup. On a miss: fetch (counted); a
non-ok response throws "Gagal mengambil data dari tanggalan.com"; a null
DOM parse throws "Gagal parsing HTML"; otherwise the entry loop builds the
results, which are cached and returned. -/
def scrapeLiburIndonesia (w : World) (year : YearParam) (now : Nat) (s : St) :
    Except ScrapeError (List Record) × St :=
  match getCachedLibur s.kv year now with
  | some cached => (.ok cached, s)
  | none =>
    match w year with
    | .failure => (.error .fetchError, ⟨s.kv, s.fetchCount + 1⟩)
    | .success none => (.error .parseError, ⟨s.kv, s.fetchCount + 1⟩)
    | .success (some holidayElements) =>
      let results := holidayElements.filterMap processEntry
      (.ok results, ⟨setCachedLibur s.kv year results now, s.fetchCount + 1⟩)

/-- A route response, reduced to the HTTP status and the record payload. -/
structure Response where
  status : Nat
  data : List Record
deriving DecidableEq, Repr

/-- `GET /api/libur/:year` (main.ts lines 214-222): rejects
`isNaN(year) || year < 1900` with a 400 before touching the provider,
otherwise serves the provider's records; a thrown error propagates. -/
def handlerYear (w : World) (p : YearParam) (now : Nat) (s : St) :
    Except ScrapeError Response × St :=
  match p with
  | .nan => (.ok ⟨400, []⟩, s)
  | .num year =>
    if year < 1900 then (.ok ⟨400, []⟩, s)
    else
      match scrapeLiburIndonesia w (.num year) now s with
      | (.ok data, s1) => (.ok ⟨200, data⟩, s1)
      | (.error e, s1) => (.error e, s1)

/-- The month filter of main.ts line 230:
`data.filter(d => d.date.toLowerCase().includes(bulan))`. -/
def filterBulan (data : List Record) (bulan : String) : List Record :=
  data.filter (fun d => jsIncludes (jsToLower d.date) bulan)

/-- `GET /api/libur/:year/bulan/:bulan` (main.ts lines 225-233): no year
validation at all — the provider is invoked for every parameter value;
the month token is lowercased once and matched as a substring of the
lowercased date. -/
def handlerBulan (w : World) (p : YearParam) (bulanParam : String) (now : Nat) (s : St) :
    Except ScrapeError Response × St :=
  let bulan := jsToLower bulanParam
  match scrapeLiburIndonesia w p now s with
  | (.ok data, s1) => (.ok ⟨200, filterBulan data bulan⟩, s1)
  | (.error e, s1) => (.error e, s1)

/-- The date filter of main.ts line 241:
`data.filter(d => d.date.startsWith(tanggal))`. -/
def filterTanggal (data : List Record) (tanggal : String) : List Record :=
  data.filter (fun d => jsStartsWith d.date tanggal)

/-- `GET /api/libur/:year/tanggal/:tanggal` (main.ts lines 236-244): no
year validation — the provider is invoked for every parameter value; the
token is matched as a literal, case-sensitive prefix of the date. -/
def handlerTanggal (w : World) (p : YearParam) (tanggal : String) (now : Nat) (s : St) :
    Except ScrapeError Response × St :=
  match scrapeLiburIndonesia w p now s with
  | (.ok data, s1) => (.ok ⟨200, filterTanggal data tanggal⟩, s1)
  | (.error e, s1) => (.error e, s1)

/-- Spec-side predicate for the by-month query: the date field,
compared case-insensitively, contains the month token as a substring. -/
def containsCI (hay needle : String) : Bool := jsIncludes (jsToLower hay) (jsToLower needle)

/-! Concrete data used by witnesses and counterexamples. -/

/-- A world in which every fetch gets a non-ok response. -/
def wEmpty : World := fun _ => FetchResult.failure

/-- A world in which every fetch succeeds and the page has zero elements
matching `.holiday, .libur`. -/
def wZero : World := fun _ => FetchResult.success (some [])

/-- A world in which every fetch succeeds but the DOM parse yields null. -/
def wNoDoc : World := fun _ => FetchResult.success none

/-- A page entry with a whitespace-padded date and a national-holiday
title. -/
def entryLibNas : Entry := ⟨some ⟨some " 1 Januari "⟩, some ⟨some "Libur Nasional Tahun Baru"⟩⟩

/-- The record the scraper builds from `entryLibNas`. -/
def recLibNas : Record := ⟨"1 Januari", "Libur Nasional Tahun Baru", HolidayType.libur_nasional⟩

/-- A world in which every fetch succeeds with the single entry
`entryLibNas`. -/
def wLibNas : World := fun _ => FetchResult.success (some [entryLibNas])

/-- The initial program state: empty KV store, no fetches performed. -/
def s0 : St := ⟨⟨[]⟩, 0⟩

/-- The state after scraping year 2025 in `wLibNas` from `s0` at time 0. -/
def s1After : St := ⟨⟨[(.num 2025, ⟨[recLibNas], 86400000⟩)]⟩, 1⟩

/-- A state whose cache already holds `[recLibNas]` for 2025, unexpired at
time 0. -/
def sLibCached : St := ⟨⟨[(.num 2025, ⟨[recLibNas], 5⟩)]⟩, 7⟩

/-- Spec example record with date "1 Januari". -/
def recJanuari : Record := ⟨"1 Januari", "Tahun Baru Masehi", HolidayType.libur_nasional⟩

/-- Spec example record with date "17 Agustus". -/
def recAgustus : Record := ⟨"17 Agustus", "Hari Kemerdekaan RI", HolidayType.libur_nasional⟩

/-- Spec example record with date "10 Januari". -/
def recJanuari10 : Record := ⟨"10 Januari", "Contoh", HolidayType.hari_besar⟩

/-- A state whose cache holds the two month-example records for 2025. -/
def sCachedBulan : St := ⟨⟨[(.num 2025, ⟨[recJanuari, recAgustus], 100⟩)]⟩, 0⟩

/-- A state whose cache holds the two date-example records for 2025. -/
def sCachedTanggal : St := ⟨⟨[(.num 2025, ⟨[recJanuari, recJanuari10], 100⟩)]⟩, 0⟩

/-- A page entry whose title element exists but holds only whitespace. -/
def entryBlankTitle : Entry := ⟨some ⟨some "1 Januari"⟩, some ⟨some "   "⟩⟩

/-- A page entry with no title sub-element. -/
def entryNoTitle : Entry := ⟨some ⟨some "1 Januari"⟩, none⟩

/-- The state after scraping a zero-record page for 2025 from `s0` at
time 0: an empty array is cached. -/
def sEmptyCached : St := ⟨⟨[(.num 2025, ⟨[], 86400000⟩)]⟩, 1⟩

/-! Helper lemmas shared between claims. -/

/-- A lookup right after a write finds exactly the written entry, with its
expiry armed `CACHE_TTL * 1000` ms after the write instant. -/
theorem getCachedLibur_setCachedLibur (kv : KvState) (y : YearParam) (d : List Record)
    (now t : Nat) :
    getCachedLibur (setCachedLibur kv y d now) y t =
      if t < now + CACHE_TTL * 1000 then some d else none := by
  simp [getCachedLibur, kvLookup, setCachedLibur, List.find?]

/-- C3: the classifier defaults to `hari_besar` (observance), assigns
`libur_nasional` when the title case-insensitively contains
"libur nasional", and assigns `cuti_bersama` when it case-insensitively
contains "cuti bersama", the joint-leave check being evaluated second and
overriding the national-holiday assignment when both phrases occur; the
three spec examples classify as stated. -/
theorem classifier_assigns_categories (t : String) :
    classifyType t =
      (if regexTestI "cuti bersama" t then HolidayType.cuti_bersama
       else if regexTestI "libur nasional" t then HolidayType.libur_nasional
       else HolidayType.hari_besar) ∧
    classifyType "Libur Nasional Tahun Baru" = HolidayType.libur_nasional ∧
    classifyType "Cuti Bersama Idul Fitri" = HolidayType.cuti_bersama ∧
    classifyType "Hari Kartini" = HolidayType.hari_besar := by
  refine ⟨?_, by decide, by decide, by decide⟩
  by_cases h1 : regexTestI "cuti bersama" t = true <;>
    by_cases h2 : regexTestI "libur nasional" t = true <;>
      simp [classifyType, h1, h2]

/-- C9: every cache write stores the given record sequence under the year
with an expiry of exactly 24 hours = 86,400,000 ms measured from the write
instant, unconditionally overwriting any prior entry for that year (the
conclusion holds for every prior store `kv`) and resetting the TTL clock:
a later read at time `t` sees the data iff `t` is within 86,400,000 ms of
the write. -/
theorem cache_write_ttl_and_overwrite (kv : KvState) (y : YearParam) (d : List Record)
    (now t : Nat) :
    CACHE_TTL * 1000 = 86400000 ∧
    kvLookup (setCachedLibur kv y d now) y = some ⟨d, now + 86400000⟩ ∧
    getCachedLibur (setCachedLibur kv y d now) y t =
      (if t < now + 86400000 then some d else none) := by
  refine ⟨rfl, ?_, ?_⟩
  · simp [kvLookup, setCachedLibur, List.find?, CACHE_TTL]
  · rw [getCachedLibur_setCachedLibur]
    norm_num [CACHE_TTL]

/-- C6: the by-month query serves exactly those records of the provider's
sequence whose date field case-insensitively contains the month token as a
substring; membership in the filtered list is equivalent to membership in
the sequence plus the case-insensitive containment; and on records with
dates "1 Januari" and "17 Agustus", filtering on "januari" keeps exactly
the first. -/
theorem bulan_query_filters_by_substring (w : World) (p : YearParam) (b : String)
    (now : Nat) (s : St) (data : List Record) (s1 : St) :
    (scrapeLiburIndonesia w p now s = (.ok data, s1) →
      handlerBulan w p b now s =
        (.ok ⟨200, data.filter (fun d => containsCI d.date b)⟩, s1)) ∧
    (∀ r : Record, r ∈ filterBulan data (jsToLower b) ↔
      r ∈ data ∧ containsCI r.date b = true) ∧
    filterBulan [recJanuari, recAgustus] (jsToLower "januari") = [recJanuari] := by
  refine ⟨?_, ?_, by decide⟩
  · intro h
    simp [handlerBulan, h, filterBulan, containsCI]
  · intro r
    simp [filterBulan, containsCI, List.mem_filter]

/-- C7: the by-date query serves exactly those records of the provider's
sequence whose date field starts with the token under a literal,
case-sensitive test (equivalent to the list-prefix relation on the
characters); and on records with dates "1 Januari" and "10 Januari",
filtering on "1 " keeps exactly "1 Januari". -/
theorem tanggal_query_filters_by_date_start (w : World) (p : YearParam) (t : String)
    (now : Nat) (s : St) (data : List Record) (s1 : St) :
    (scrapeLiburIndonesia w p now s = (.ok data, s1) →
      handlerTanggal w p t now s =
        (.ok ⟨200, data.filter (fun d => jsStartsWith d.date t)⟩, s1)) ∧
    (∀ r : Record, r ∈ filterTanggal data t ↔ r ∈ data ∧ t.data <+: r.date.data) ∧
    filterTanggal [recJanuari, recJanuari10] "1 " = [recJanuari] := by
  refine ⟨?_, ?_, by decide⟩
  · intro h
    simp [handlerTanggal, h, filterTanggal]
  · intro r
    simp [filterTanggal, jsStartsWith, List.mem_filter, List.isPrefixOf_iff_prefix]

/-- C1: with an unexpired cache entry for the year, the provider returns
the cached records and performs no fetch (the state, fetch counter
included, is untouched); consequently a first call on a cache miss that
fetches and parses successfully is immediately followed by a second call
that returns the identical sequence with no further fetch, for a total of
exactly one upstream fetch. -/
theorem provider_cache_hit_no_second_fetch (w : World) (y : YearParam) (now : Nat)
    (s : St) (v : List Record) (es : List Entry) :
    (getCachedLibur s.kv y now = some v → scrapeLiburIndonesia w y now s = (.ok v, s)) ∧
    (getCachedLibur s.kv y now = none → w y = .success (some es) →
      scrapeLiburIndonesia w y now s =
        (.ok (es.filterMap processEntry),
         ⟨setCachedLibur s.kv y (es.filterMap processEntry) now, s.fetchCount + 1⟩) ∧
      scrapeLiburIndonesia w y now
          ⟨setCachedLibur s.kv y (es.filterMap processEntry) now, s.fetchCount + 1⟩ =
        (.ok (es.filterMap processEntry),
         ⟨setCachedLibur s.kv y (es.filterMap processEntry) now, s.fetchCount + 1⟩)) := by
  constructor
  · intro h
    simp [scrapeLiburIndonesia, h]
  · intro h0 hw
    have hhit : getCachedLibur (setCachedLibur s.kv y (es.filterMap processEntry) now) y now =
        some (es.filterMap processEntry) := by
      rw [getCachedLibur_setCachedLibur, if_pos]
      norm_num [CACHE_TTL]
    constructor
    · simp [scrapeLiburIndonesia, h0, hw]
    · simp [scrapeLiburIndonesia, hhit]

/-- C2: whenever the provider propagates an error, the cache is exactly as
before the call; on a cache miss, a failed fetch yields the fetch error
and a null DOM parse yields the parse error, in both cases incrementing
only the fetch counter and writing nothing to the cache. -/
theorem provider_error_cache_unchanged (w : World) (y : YearParam) (now : Nat)
    (s : St) (e : ScrapeError) :
    ((scrapeLiburIndonesia w y now s).1 = .error e →
      (scrapeLiburIndonesia w y now s).2.kv = s.kv) ∧
    (getCachedLibur s.kv y now = none → w y = .failure →
      scrapeLiburIndonesia w y now s = (.error .fetchError, ⟨s.kv, s.fetchCount + 1⟩)) ∧
    (getCachedLibur s.kv y now = none → w y = .success none →
      scrapeLiburIndonesia w y now s = (.error .parseError, ⟨s.kv, s.fetchCount + 1⟩)) := by
  refine ⟨?_, ?_, ?_⟩
  · intro h
    cases hc : getCachedLibur s.kv y now with
    | some v => simp [scrapeLiburIndonesia, hc] at h
    | none =>
      cases hw : w y with
      | failure => simp [scrapeLiburIndonesia, hc, hw]
      | success doc =>
        cases doc with
        | none => simp [scrapeLiburIndonesia, hc, hw]
        | some es => simp [scrapeLiburIndonesia, hc, hw] at h
  · intro h0 hw
    simp [scrapeLiburIndonesia, h0, hw]
  · intro h0 hw
    simp [scrapeLiburIndonesia, h0, hw]

/-- C8: on a cache miss, a successfully parsed document with zero elements
matching the holiday-entry markers yields the empty sequence without
error, while a body the DOM parser cannot turn into a document (a null
parse) makes the provider fail with the parse error. -/
theorem parse_empty_ok_nodoc_error (w : World) (y : YearParam) (now : Nat) (s : St) :
    (getCachedLibur s.kv y now = none → w y = .success (some []) →
      (scrapeLiburIndonesia w y now s).1 = .ok []) ∧
    (getCachedLibur s.kv y now = none → w y = .success none →
      (scrapeLiburIndonesia w y now s).1 = .error .parseError) := by
  constructor <;> intro h0 hw <;> simp [scrapeLiburIndonesia, h0, hw]

/-- C10: when a parse succeeds with zero records, the empty sequence is
written to the cache, and since every JS array — the empty one included —
is truthy while an absent entry reads as null, a second call within the
TTL is a cache hit: it returns the cached empty sequence with no further
fetch. -/
theorem empty_result_cached_as_hit (w : World) (y : YearParam) (now : Nat) (s : St)
    (es : List Entry) (h0 : getCachedLibur s.kv y now = none)
    (hw : w y = .success (some es)) (hz : es.filterMap processEntry = []) :
    scrapeLiburIndonesia w y now s =
      (.ok [], ⟨setCachedLibur s.kv y [] now, s.fetchCount + 1⟩) ∧
    getCachedLibur (setCachedLibur s.kv y [] now) y now = some [] ∧
    scrapeLiburIndonesia w y now ⟨setCachedLibur s.kv y [] now, s.fetchCount + 1⟩ =
      (.ok [], ⟨setCachedLibur s.kv y [] now, s.fetchCount + 1⟩) := by
  have hhit : getCachedLibur (setCachedLibur s.kv y [] now) y now = some [] := by
    rw [getCachedLibur_setCachedLibur, if_pos]
    norm_num [CACHE_TTL]
  refine ⟨?_, hhit, ?_⟩
  · simp [scrapeLiburIndonesia, h0, hw, hz]
  · simp [scrapeLiburIndonesia, hhit]

/-- C4 counterexample: on the by-month and by-date routes a year of 1899
is NOT rejected — the provider runs, an upstream fetch happens (the fetch
counter goes from 0 to 1), the cache is written for 1899, and the request
is answered 200; the claim says every one of the three routes rejects 1899
with a 400 before any fetch or cache access. -/
theorem year_validation_counterexample :
    handlerBulan wZero (.num 1899) "januari" 0 s0 =
      (.ok ⟨200, []⟩, ⟨⟨[(.num 1899, ⟨[], 86400000⟩)]⟩, 1⟩) ∧
    handlerTanggal wZero (.num 1899) "1" 0 s0 =
      (.ok ⟨200, []⟩, ⟨⟨[(.num 1899, ⟨[], 86400000⟩)]⟩, 1⟩) := by
  exact ⟨rfl, rfl⟩

/-- C4 amended: only the by-year route validates the year — a NaN or a
year below 1900 is answered 400 with the state untouched (no fetch, no
cache access) and 1900 or later proceeds to the provider; the by-month and
by-date-prefix routes perform no validation and invoke the provider for
every year parameter, NaN and pre-1900 years included. -/
theorem year_validation_amended (w : World) (n : Int) (p : YearParam) (b t : String)
    (now : Nat) (s : St) :
    handlerYear w .nan now s = (.ok ⟨400, []⟩, s) ∧
    (n < 1900 → handlerYear w (.num n) now s = (.ok ⟨400, []⟩, s)) ∧
    (1900 ≤ n → handlerYear w (.num n) now s =
      ((scrapeLiburIndonesia w (.num n) now s).1.map (fun d => ⟨200, d⟩),
       (scrapeLiburIndonesia w (.num n) now s).2)) ∧
    handlerBulan w p b now s =
      ((scrapeLiburIndonesia w p now s).1.map
         (fun d => ⟨200, filterBulan d (jsToLower b)⟩),
       (scrapeLiburIndonesia w p now s).2) ∧
    handlerTanggal w p t now s =
      ((scrapeLiburIndonesia w p now s).1.map (fun d => ⟨200, filterTanggal d t⟩),
       (scrapeLiburIndonesia w p now s).2) := by
  refine ⟨rfl, ?_, ?_, ?_, ?_⟩
  · intro h
    simp [handlerYear, h]
  · intro h
    have hn : ¬ n < 1900 := not_lt.mpr h
    rcases hs : scrapeLiburIndonesia w (.num n) now s with ⟨r, s1⟩
    cases r <;> simp [handlerYear, hn, hs, Except.map]
  · rcases hs : scrapeLiburIndonesia w p now s with ⟨r, s1⟩
    cases r <;> simp [handlerBulan, hs, Except.map]
  · rcases hs : scrapeLiburIndonesia w p now s with ⟨r, s1⟩
    cases r <;> simp [handlerTanggal, hs, Except.map]

/-- C5 counterexample: a page entry whose title sub-element is present but
holds only whitespace is NOT skipped — the parser emits a record whose
title is the empty string, so not every produced record has a non-empty
title. -/
theorem nonempty_title_counterexample :
    processEntry entryBlankTitle = some ⟨"1 Januari", "", HolidayType.hari_besar⟩ ∧
    ([entryBlankTitle].filterMap processEntry).all (fun r => !(r.title == "")) = false := by
  exact ⟨rfl, rfl⟩

/-- C5 amended: a page entry whose date sub-element or title sub-element
is absent is silently skipped, yielding no record, and the records
produced are exactly one per entry with both sub-elements present, built
from the trimmed text contents — but such a title may be the empty string
(when the element's text is null or whitespace), so titles are not
guaranteed non-empty. -/
theorem parser_drops_incomplete_entries (e : Entry) (es : List Entry) (dEl tEl : Element) :
    (e.dateEl = none ∨ e.titleEl = none → processEntry e = none) ∧
    (e.dateEl = some dEl → e.titleEl = some tEl →
      processEntry e = some ⟨(dEl.textContent.map jsTrim).getD "",
        (tEl.textContent.map jsTrim).getD "",
        classifyType ((tEl.textContent.map jsTrim).getD "")⟩) ∧
    (es.filterMap processEntry).length =
      (es.filter (fun x => x.dateEl.isSome && x.titleEl.isSome)).length := by
  obtain ⟨de, te⟩ := e
  refine ⟨?_, ?_, ?_⟩
  · rintro (h | h) <;> simp only at h <;> subst h
    · rfl
    · cases de <;> rfl
  · intro hd ht
    simp only at hd ht
    subst hd
    subst ht
    rfl
  · induction es with
    | nil => rfl
    | cons x xs ih =>
      obtain ⟨dx, tx⟩ := x
      cases dx <;> cases tx <;> simp [processEntry, ih]

/-- Witness for C1: at year 2025 in `wLibNas`, a hit on a pre-populated
cache returns it untouched, and from the empty state the first call
fetches once, caches, and the second call returns the identical records
without touching the state again. -/
theorem provider_cache_hit_no_second_fetch_witness :
    scrapeLiburIndonesia wLibNas (.num 2025) 0 sLibCached = (.ok [recLibNas], sLibCached) ∧
    scrapeLiburIndonesia wLibNas (.num 2025) 0 s0 = (.ok [recLibNas], s1After) ∧
    scrapeLiburIndonesia wLibNas (.num 2025) 0 s1After = (.ok [recLibNas], s1After) := by
  have hA := (provider_cache_hit_no_second_fetch wLibNas (.num 2025) 0 sLibCached
      [recLibNas] [entryLibNas]).1 (by rfl)
  have hB := (provider_cache_hit_no_second_fetch wLibNas (.num 2025) 0 s0
      [recLibNas] [entryLibNas]).2 (by rfl) (by rfl)
  exact ⟨hA, hB.1.trans (by rfl), hB.2.trans (by rfl)⟩

/-- Witness for C2: on the empty state, a failing fetch for 2025 yields
the fetch error and a null DOM parse yields the parse error, each leaving
the cache empty and counting one fetch. -/
theorem provider_error_cache_unchanged_witness :
    scrapeLiburIndonesia wEmpty (.num 2025) 0 s0 = (.error .fetchError, ⟨⟨[]⟩, 1⟩) ∧
    scrapeLiburIndonesia wNoDoc (.num 2025) 0 s0 = (.error .parseError, ⟨⟨[]⟩, 1⟩) := by
  have h1 := (provider_error_cache_unchanged wEmpty (.num 2025) 0 s0 .fetchError).2.1
      (by rfl) (by rfl)
  have h2 := (provider_error_cache_unchanged wNoDoc (.num 2025) 0 s0 .parseError).2.2
      (by rfl) (by rfl)
  exact ⟨h1, h2⟩

/-- Witness for C4 amended: the by-year route answers 400 and keeps the
state for NaN and 1899, and for 1900 it reaches the provider (here: one
fetch happens and its failure propagates). -/
theorem year_validation_amended_witness :
    handlerYear wEmpty .nan 0 s0 = (.ok ⟨400, []⟩, s0) ∧
    handlerYear wEmpty (.num 1899) 0 s0 = (.ok ⟨400, []⟩, s0) ∧
    handlerYear wEmpty (.num 1900) 0 s0 = (.error .fetchError, ⟨⟨[]⟩, 1⟩) := by
  have h := year_validation_amended wEmpty 1899 .nan "b" "t" 0 s0
  have h1900 := year_validation_amended wEmpty 1900 .nan "b" "t" 0 s0
  exact ⟨h.1, h.2.1 (by norm_num), (h1900.2.2.1 (by norm_num)).trans (by rfl)⟩

/-- Witness for C5 amended: an entry with no title sub-element is skipped,
and an entry with both sub-elements present produces the record with
trimmed date and (here empty) trimmed title. -/
theorem parser_drops_incomplete_entries_witness :
    processEntry entryNoTitle = none ∧
    processEntry entryBlankTitle = some ⟨"1 Januari", "", HolidayType.hari_besar⟩ := by
  have h1 := (parser_drops_incomplete_entries entryNoTitle [] ⟨some "1 Januari"⟩
      ⟨some "   "⟩).1 (Or.inr rfl)
  have h2 := (parser_drops_incomplete_entries entryBlankTitle [] ⟨some "1 Januari"⟩
      ⟨some "   "⟩).2.1 rfl rfl
  exact ⟨h1, h2.trans (by rfl)⟩

/-- Witness for C6: with records dated "1 Januari" and "17 Agustus" cached
for 2025, the by-month query on "januari" serves exactly the first. -/
theorem bulan_query_filters_by_substring_witness :
    handlerBulan wEmpty (.num 2025) "januari" 0 sCachedBulan =
      (.ok ⟨200, [recJanuari]⟩, sCachedBulan) := by
  have h := (bulan_query_filters_by_substring wEmpty (.num 2025) "januari" 0 sCachedBulan
      [recJanuari, recAgustus] sCachedBulan).1 (by rfl)
  exact h.trans (by rfl)

/-- Witness for C7: with records dated "1 Januari" and "10 Januari" cached
for 2025, the by-date query on "1 " serves exactly "1 Januari". -/
theorem tanggal_query_filters_by_date_start_witness :
    handlerTanggal wEmpty (.num 2025) "1 " 0 sCachedTanggal =
      (.ok ⟨200, [recJanuari]⟩, sCachedTanggal) := by
  have h := (tanggal_query_filters_by_date_start wEmpty (.num 2025) "1 " 0 sCachedTanggal
      [recJanuari, recJanuari10] sCachedTanggal).1 (by rfl)
  exact h.trans (by rfl)

/-- Witness for C8: from the empty state, a zero-match document for 2025
parses to the empty sequence and a null document fails with the parse
error. -/
theorem parse_empty_ok_nodoc_error_witness :
    (scrapeLiburIndonesia wZero (.num 2025) 0 s0).1 = .ok [] ∧
    (scrapeLiburIndonesia wNoDoc (.num 2025) 0 s0).1 = .error .parseError := by
  exact ⟨(parse_empty_ok_nodoc_error wZero (.num 2025) 0 s0).1 (by rfl) (by rfl),
         (parse_empty_ok_nodoc_error wNoDoc (.num 2025) 0 s0).2 (by rfl) (by rfl)⟩

/-- Witness for C10: a zero-record parse for 2025 caches the empty array,
the cached empty array reads back as a (truthy) hit, and the second call
returns it without a second fetch. -/
theorem empty_result_cached_as_hit_witness :
    scrapeLiburIndonesia wZero (.num 2025) 0 s0 = (.ok [], sEmptyCached) ∧
    getCachedLibur sEmptyCached.kv (.num 2025) 0 = some [] ∧
    scrapeLiburIndonesia wZero (.num 2025) 0 sEmptyCached = (.ok [], sEmptyCached) := by
  have h := empty_result_cached_as_hit wZero (.num 2025) 0 s0 [] (by rfl) (by rfl) (by rfl)
  exact ⟨h.1, h.2.1, h.2.2⟩

end HariLibur
